import Mathlib

/-!
Shallow embedding of the AWS cost-monitor bot (config.py, aws_cost_monitor.py,
slack_notifier.py, cost_monitor_bot.py, main.py) and proofs about the claims
of its specification.

Python floats are modelled as rationals (all operations involved are +, *, /
and comparisons on modest decimal values).  Python strings handled by `.lower()`
or the substring operator `in` are modelled as lists of natural-number code
points; strings that are only carried around as data are modelled as `String`.
A Python `ZeroDivisionError` caught by a surrounding `try/except` is modelled
explicitly by the branch the `except` clause returns.
-/

/-! ### Strings as code points (for `.lower()` and substring semantics) -/

/-- Python `str.lower()` on one ASCII code point: 65..90 ('A'..'Z') map to
97..122 ('a'..'z'), everything else is unchanged. -/
def pyLowerChar (c : ℕ) : ℕ :=
  if 65 ≤ c ∧ c ≤ 90 then c + 32 else c

/-- Python `str.lower()` over a whole string (list of code points). -/
def pyLower (s : List ℕ) : List ℕ :=
  s.map pyLowerChar

/-! ### `Config.should_monitor_resource` (config.py lines 181-197) -/

/-- Embeds `Config.should_monitor_resource`: every excluded entry is tested as
a substring of the ARN first (return `False` on a hit); an empty include list
means monitor everything else; otherwise some include entry must be a
substring.  Python `a in b` on strings is contiguous-substring membership,
i.e. `List` infix. -/
def should_monitor_resource (resource_arns excluded_arns : List (List ℕ))
    (arn : List ℕ) : Bool :=
  if excluded_arns.any (fun e => decide (e <:+: arn)) then false
  else if resource_arns.isEmpty then true
  else resource_arns.any (fun i => decide (i <:+: arn))

/-! ### `Config.get_service_threshold` (config.py lines 161-163) -/

/-- Python `dict.get(k, default)` over an association list with distinct keys. -/
def dictGetQ (d : List (List ℕ × ℚ)) (k : List ℕ) (default : ℚ) : ℚ :=
  match d with
  | [] => default
  | (k', v) :: rest => if k' = k then v else dictGetQ rest k default

/-- Embeds `Config.get_service_threshold`: looks up the *lowercased* service
name in `service_thresholds` (whose stored keys are not lowercased), falling
back to the global `cost_threshold`. -/
def get_service_threshold (service_thresholds : List (List ℕ × ℚ))
    (cost_threshold : ℚ) (service_name : List ℕ) : ℚ :=
  dictGetQ service_thresholds (pyLower service_name) cost_threshold

/-! ### `Config.__init__` / `Config._load_config_file` (config.py lines 12-123)

The Python object is a dynamic attribute dictionary.  `_load_config_file`
runs its `hasattr`/`setattr` merge loop *before* any of the
environment-derived attributes have been assigned, which is what decides
claim C3, so the attribute dictionary is modelled explicitly. -/

/-- A configuration attribute value (the types that occur on the fields the
claims are about). -/
inductive ConfigVal where
  | num : ℚ → ConfigVal
  | str : String → ConfigVal
  | boolean : Bool → ConfigVal
  | numMap : List (String × ℚ) → ConfigVal
deriving DecidableEq, Repr

/-- Python `str.lower()` on a Lean `String` (ASCII, as in `pyLowerChar`). -/
def pyLowerString (s : String) : String :=
  String.mk (s.data.map fun c =>
    if 'A' ≤ c ∧ c ≤ 'Z' then Char.ofNat (c.toNat + 32) else c)

/-- The methods defined on the `Config` class body; `hasattr` also sees
these. -/
def configClassMembers : List String :=
  ["_load_config_file", "_parse_list", "_parse_service_thresholds",
   "_parse_tag_filters", "_parse_alert_levels", "_validate_config",
   "get_aws_credentials", "is_service_enabled", "get_service_threshold",
   "get_enabled_services_list", "should_monitor_resource",
   "get_cost_explorer_filters", "to_dict"]

/-- Python `hasattr(self, k)` over the instance attribute dictionary plus the
class members. -/
def pyHasattr (attrs : List (String × ConfigVal)) (k : String) : Bool :=
  attrs.any (fun p => p.1 = k) || configClassMembers.contains k

/-- Python `setattr(self, k, v)`: replace the binding if present, else append
a new one. -/
def pySetattr (attrs : List (String × ConfigVal)) (k : String) (v : ConfigVal) :
    List (String × ConfigVal) :=
  if attrs.any (fun p => p.1 = k) then
    attrs.map (fun p => if p.1 = k then (k, v) else p)
  else
    attrs ++ [(k, v)]

/-- Python `getattr(self, k, None)`. -/
def pyGetattr (attrs : List (String × ConfigVal)) (k : String) : Option ConfigVal :=
  (attrs.find? (fun p => p.1 = k)).map Prod.snd

/-- The environment variables feeding the configuration fields the claims
are about.  Numeric variables are modelled after their `float()` parse. -/
structure Env where
  COST_THRESHOLD : Option ℚ
  ANOMALY_SENSITIVITY : Option String
  ALERT_CRITICAL_PERCENT : Option ℚ
  ALERT_WARNING_PERCENT : Option ℚ
  ALERT_INFO_PERCENT : Option ℚ
deriving Repr

/-- Embeds `Config.__init__` restricted to the fields the claims need.
Step 1: `self.config_file` / `self.config_data` are assigned.
Step 2: `_load_config_file` runs its merge loop
`for key, value in self.config_data.items(): if hasattr(self, key.lower()):
setattr(self, key.lower(), value)` — at this point no configuration
attribute exists yet, only the two bookkeeping attributes and the class
methods.
Step 3: the environment-derived assignments run (config.py lines 19-66;
fields irrelevant to the claims are omitted), including
`_parse_alert_levels` which reads the three `ALERT_*_PERCENT` variables with
defaults 100.0 / 80.0 / 50.0 and performs no ordering validation. -/
def configInit (fileData : List (String × ConfigVal)) (env : Env) :
    List (String × ConfigVal) :=
  let a0 := [("config_file", ConfigVal.str ""), ("config_data", ConfigVal.str "")]
  let a1 := fileData.foldl
    (fun acc kv =>
      if pyHasattr acc (pyLowerString kv.1) then
        pySetattr acc (pyLowerString kv.1) kv.2
      else acc) a0
  let a2 := pySetattr a1 "cost_threshold" (.num (env.COST_THRESHOLD.getD 100))
  let a3 := pySetattr a2 "anomaly_sensitivity"
    (.str (env.ANOMALY_SENSITIVITY.getD "medium"))
  let a4 := pySetattr a3 "alert_levels"
    (.numMap [("critical", env.ALERT_CRITICAL_PERCENT.getD 100),
              ("warning", env.ALERT_WARNING_PERCENT.getD 80),
              ("info", env.ALERT_INFO_PERCENT.getD 50)])
  a4

/-- Reads the resolved `cost_threshold` field. -/
def configCostThreshold (attrs : List (String × ConfigVal)) : ℚ :=
  match pyGetattr attrs "cost_threshold" with
  | some (.num q) => q
  | _ => 0

/-- Reads the resolved `alert_levels` dictionary. -/
def configAlertLevels (attrs : List (String × ConfigVal)) : List (String × ℚ) :=
  match pyGetattr attrs "alert_levels" with
  | some (.numMap m) => m
  | _ => []

/-- Python `alert_levels[k]` (the dictionary always carries the three keys). -/
def alertLevelValue (m : List (String × ℚ)) (k : String) : ℚ :=
  match m with
  | [] => 0
  | (k', v) :: rest => if k' = k then v else alertLevelValue rest k

/-- Embeds the `--threshold` CLI override of main.py lines 229-231:
`if args.threshold: bot.config.cost_threshold = args.threshold` — note the
Python truthiness test, a supplied `0.0` does not override. -/
def applyCliThreshold (threshold : Option ℚ) (attrs : List (String × ConfigVal)) :
    List (String × ConfigVal) :=
  match threshold with
  | some t => if t ≠ 0 then pySetattr attrs "cost_threshold" (.num t) else attrs
  | none => attrs

/-! ### `AWSCostMonitor.check_cost_anomalies` (aws_cost_monitor.py lines 319-370) -/

/-- One detected anomaly.  The human-readable `description` field is not
modelled (it is a formatted string), but the division
`recent_avg / previous_avg` performed while formatting it is modelled
explicitly in `check_cost_anomalies` because it can raise
`ZeroDivisionError`. -/
structure Anomaly where
  kind : String
  severity : String
  sensitivity : String
deriving DecidableEq, Repr

/-- Embeds the `sensitivity_multipliers` dictionary and its
`.get(anomaly_sensitivity, 1.5)` lookup: low → 2.0, medium → 1.5,
high → 1.2, anything else → 1.5. -/
def sensitivityMultiplier (s : String) : ℚ :=
  if s = "low" then 2
  else if s = "medium" then 3/2
  else if s = "high" then 6/5
  else 3/2

/-- Python slice `l[a:b]` for already-clamped nonnegative indices `a ≤ b`
(natural subtraction gives the clamping of `l[-14:-7]` for short lists). -/
def pySlice (l : List ℚ) (a b : ℕ) : List ℚ :=
  (l.drop a).take (b - a)

/-- The daily-spike loop of `check_cost_anomalies` (lines 355-364): walk the
last-7-days window pairwise and flag `day.cost > prev_day.cost * multiplier`
with severity "high". -/
def pairSpikes (m : ℚ) (sens : String) : List ℚ → List Anomaly
  | a :: b :: rest =>
      (if b > a * m then [⟨"daily_spike", "high", sens⟩] else [])
        ++ pairSpikes m sens (b :: rest)
  | _ => []

/-- The `recent_avg` local of `check_cost_anomalies` (line 340):
`sum(day['cost'] for day in daily_costs[-7:]) / 7`. -/
def recent_avg (daily_costs : List ℚ) : ℚ :=
  (daily_costs.drop (daily_costs.length - 7)).sum / 7

/-- The `previous_avg` local of `check_cost_anomalies` (line 341):
`sum(day['cost'] for day in daily_costs[-14:-7]) / 7` — the denominator is 7
even when the slice holds fewer than 7 entries. -/
def previous_avg (daily_costs : List ℚ) : ℚ :=
  (pySlice daily_costs (daily_costs.length - 14) (daily_costs.length - 7)).sum / 7

/-- Embeds `AWSCostMonitor.check_cost_anomalies` on an already-fetched daily
cost series (the costs of `get_daily_costs`, in date order).

* disabled anomaly detection or fewer than 7 entries → `[]`;
* `recent_avg` is the mean of the last 7 entries, `previous_avg` is
  `sum(daily_costs[-14:-7]) / 7` — dividing by 7 even when that slice has
  fewer than 7 entries;
* if the weekly condition `recent_avg > previous_avg * multiplier` holds
  while `previous_avg = 0`, formatting the anomaly description computes
  `recent_avg / previous_avg`, raising `ZeroDivisionError`; the surrounding
  `except` catches it and the whole call returns `[]`;
* otherwise a `cost_spike` anomaly (severity "high" iff
  `recent_avg > previous_avg * 2`, else "medium") is emitted when the weekly
  condition holds, followed by the daily-spike anomalies of the last-7
  window. -/
def check_cost_anomalies (enable_anomaly_detection : Bool)
    (anomaly_sensitivity : String) (daily_costs : List ℚ) : List Anomaly :=
  if !enable_anomaly_detection then []
  else if daily_costs.length < 7 then []
  else
    let multiplier := sensitivityMultiplier anomaly_sensitivity
    if recent_avg daily_costs > previous_avg daily_costs * multiplier ∧
        previous_avg daily_costs = 0 then
      []
    else
      let weekly : List Anomaly :=
        if recent_avg daily_costs > previous_avg daily_costs * multiplier then
          [⟨"cost_spike",
            if recent_avg daily_costs > previous_avg daily_costs * 2 then "high"
            else "medium",
            anomaly_sensitivity⟩]
        else []
      weekly ++ pairSpikes multiplier anomaly_sensitivity
        (daily_costs.drop (daily_costs.length - 7))

/-! ### Alert-level selection in `SlackNotifier.send_cost_alert`
(slack_notifier.py lines 29-45) -/

/-- The alert-level ladder of `send_cost_alert` when a config is present:
inclusive `>=` against the critical, warning and info cutoffs in that
order. -/
def alertLevel (critical warning info : ℚ) (percentage : ℚ) : String :=
  if percentage ≥ critical then "🚨 CRITICAL"
  else if percentage ≥ warning then "⚠️ WARNING"
  else if percentage ≥ info then "ℹ️ INFO"
  else "✅ NORMAL"

/-- Rank of an alert level in the tier order normal < info < warning <
critical, for stating monotonicity. -/
def levelRank (s : String) : ℕ :=
  if s = "🚨 CRITICAL" then 3
  else if s = "⚠️ WARNING" then 2
  else if s = "ℹ️ INFO" then 1
  else 0

/-! ### The three percentage-of-threshold computations (claim C2) -/

/-- Embeds the `percentage_of_threshold` entry of
`CostMonitorBot.check_costs` (cost_monitor_bot.py line 88):
`(current_cost / self.config.cost_threshold) * 100`, unguarded — a zero
threshold raises `ZeroDivisionError`, which `check_costs` re-raises
(modelled as `none`). -/
def check_costs_percentage (current_cost cost_threshold : ℚ) : Option ℚ :=
  if cost_threshold = 0 then none
  else some ((current_cost / cost_threshold) * 100)

/-- Embeds the guarded percentage of
`AWSCostMonitor.get_service_specific_costs` (aws_cost_monitor.py line 183):
`(total_cost / service_threshold) * 100 if service_threshold > 0 else 0`. -/
def percentage_of_threshold (total_cost service_threshold : ℚ) : ℚ :=
  if service_threshold > 0 then (total_cost / service_threshold) * 100 else 0

/-! ### The Slack notifier send functions (slack_notifier.py)

Each one is a `try` block ending in `chat_postMessage` and `return True`,
with `except SlackApiError` / `except Exception` branches returning `False`.
The delivery outcome of the messaging API is a parameter
(`Except String Unit`); an internal `ZeroDivisionError` is modelled by the
branch its `except` clause returns. -/

/-- Embeds `SlackNotifier.send_cost_alert` (lines 16-214): computing
`(current_cost / threshold) * 100` raises when `threshold = 0` and the
`except` returns `False`; otherwise the result is `True` exactly when the
messaging API accepts the post. -/
def send_cost_alert (current_cost threshold : ℚ)
    (delivery : Except String Unit) : Bool :=
  if threshold = 0 then false
  else
    let _percentage_of_threshold := (current_cost / threshold) * 100
    match delivery with
    | .ok _ => true
    | .error _ => false

/-- Embeds `SlackNotifier.send_service_specific_alert` (lines 216-321): the
percentage arrives precomputed inside `service_data` and the trend division
is guarded by `if previous_avg > 0 else 0`, so the result depends only on
the delivery outcome. -/
def send_service_specific_alert (cost threshold percentage : ℚ)
    (delivery : Except String Unit) : Bool :=
  let _ := (cost, threshold, percentage)
  match delivery with
  | .ok _ => true
  | .error _ => false

/-- Embeds `SlackNotifier.send_cost_summary` (lines 323-455): when forecast
data is present and forecasting enabled, `(forecast_cost/total_cost - 1)`
raises for `total_cost = 0` and the `except` returns `False`; otherwise the
result is `True` exactly when the messaging API accepts the post. -/
def send_cost_summary (total_cost : ℚ) (forecast : Option ℚ)
    (enable_cost_forecasting : Bool) (delivery : Except String Unit) : Bool :=
  if (forecast.isSome && enable_cost_forecasting) && total_cost = 0 then false
  else
    match delivery with
    | .ok _ => true
    | .error _ => false

/-! ### Billing-API response processing (aws_cost_monitor.py, claim C8) -/

/-- One `Groups` entry of a time bucket: `Keys` plus the
`Metrics.BlendedCost.Amount` (already float-parsed). -/
structure CEGroup where
  keys : List String
  amount : ℚ
deriving Repr

/-- One `ResultsByTime` bucket of a Cost Explorer response. -/
structure CETimeResult where
  start : String
  endDate : String
  totalBlended : ℚ
  currencyUnit : Option String
  groups : List CEGroup
deriving Repr

/-- A Cost Explorer `get_cost_and_usage` response: its `ResultsByTime`
list. -/
structure CEResponse where
  resultsByTime : List CETimeResult
deriving Repr

/-- Stable sort by date string, standing in for Python's
`sorted(daily_costs, key=lambda x: x['date'])`. -/
def insertByDate (x : String × ℚ) : List (String × ℚ) → List (String × ℚ)
  | [] => [x]
  | y :: ys => if y.1 ≤ x.1 then y :: insertByDate x ys else x :: y :: ys

/-- Embeds `AWSCostMonitor.get_daily_costs` (lines 253-285) on an
already-fetched response: one `(date, cost)` pair per time bucket, sorted by
date. -/
def get_daily_costs (resp : CEResponse) : List (String × ℚ) :=
  (resp.resultsByTime.map (fun r => (r.start, r.totalBlended))).foldr
    insertByDate []

/-- Python dict assignment `d[k] = v` on an association list. -/
def dictSet (d : List (String × ℚ)) (k : String) (v : ℚ) : List (String × ℚ) :=
  if d.any (fun p => p.1 = k) then
    d.map (fun p => if p.1 = k then (k, v) else p)
  else
    d ++ [(k, v)]

/-- Python `d[k] = d.get-or-0 + v` accumulation used by
`_process_cost_data`'s service breakdown. -/
def dictAdd (d : List (String × ℚ)) (k : String) (v : ℚ) : List (String × ℚ) :=
  match d.find? (fun p => p.1 = k) with
  | some p => dictSet d k (p.2 + v)
  | none => d ++ [(k, v)]

/-- Embeds `AWSCostMonitor.get_current_month_cost` (lines 93-137) after the
API call: with no time bucket the loop body never runs and `(0.0, {})` is
returned; otherwise the groups of the first bucket are folded, summing and
recording only enabled services.  `group['Keys'][0]` on an empty `Keys`
raises `IndexError`; the surrounding `except` returns `(0.0, {})`. -/
def get_current_month_cost (is_service_enabled : String → Bool)
    (resp : CEResponse) : ℚ × List (String × ℚ) :=
  match resp.resultsByTime with
  | [] => (0, [])
  | r :: _ =>
      if r.groups.any (fun g => g.keys.isEmpty) then (0, [])
      else
        r.groups.foldl
          (fun acc g =>
            let service_name := g.keys.headD ""
            if is_service_enabled service_name then
              (acc.1 + g.amount, dictSet acc.2 service_name g.amount)
            else acc)
          (0, [])

/-- The normalized structure built by `_process_cost_data`. -/
structure ProcessedCostData where
  total_cost : ℚ
  currency : String
  daily_breakdown : List (String × ℚ)
  service_breakdown : List (String × ℚ)
  periodStart : String
  periodEnd : String
deriving Repr

/-- Embeds `AWSCostMonitor._process_cost_data` (lines 457-511): initial
totals of `0.0` / `'USD'` / empty breakdowns and empty time period; if
`ResultsByTime` is non-empty the period is taken from its first and last
buckets; each bucket adds its total to `total_cost` and to the daily
breakdown, updates the currency when a unit is present, and accumulates the
enabled services of its groups (`Keys[0]`, guarded to `'Unknown'` when
empty). -/
def process_cost_data (is_service_enabled : String → Bool)
    (resp : CEResponse) : ProcessedCostData :=
  let base : ProcessedCostData := ⟨0, "USD", [], [], "", ""⟩
  let withPeriod :=
    match resp.resultsByTime with
    | [] => base
    | first :: rest =>
        { base with
            periodStart := first.start,
            periodEnd := ((first :: rest).getLast (by simp)).endDate }
  resp.resultsByTime.foldl
    (fun pd r =>
      let pd := { pd with
        total_cost := pd.total_cost + r.totalBlended,
        currency := match r.currencyUnit with
          | some u => u
          | none => pd.currency,
        daily_breakdown := pd.daily_breakdown ++ [(r.start, r.totalBlended)] }
      r.groups.foldl
        (fun pd g =>
          let service_name := g.keys.headD "Unknown"
          if is_service_enabled service_name then
            { pd with
                service_breakdown := dictAdd pd.service_breakdown service_name g.amount }
          else pd)
        pd)
    withPeriod

/-! ## Helper lemmas -/

/-- Every anomaly produced by the daily-spike loop has kind "daily_spike". -/
theorem pairSpikes_kind (m : ℚ) (sens : String) :
    ∀ l : List ℚ, ∀ a ∈ pairSpikes m sens l, a.kind = "daily_spike"
  | a :: b :: rest => by
      intro x hx
      unfold pairSpikes at hx
      rcases List.mem_append.1 hx with h | h
      · split at h
        · simp only [List.mem_singleton] at h
          subst h; rfl
        · simp at h
      · exact pairSpikes_kind m sens (b :: rest) x h
  | [] => by intro x hx; simp [pairSpikes] at hx
  | [a] => by intro x hx; simp [pairSpikes] at hx

/-- Filtering the daily-spike anomalies away from a `pairSpikes` output
leaves nothing. -/
theorem pairSpikes_filter_cost (m : ℚ) (sens : String) (l : List ℚ) :
    (pairSpikes m sens l).filter (fun a => a.kind == "cost_spike") = [] := by
  rw [List.filter_eq_nil_iff]
  intro a ha
  have := pairSpikes_kind m sens l a ha
  simp [this]

/-- Filtering a `pairSpikes` output to daily-spike anomalies keeps all of
it. -/
theorem pairSpikes_filter_daily (m : ℚ) (sens : String) (l : List ℚ) :
    (pairSpikes m sens l).filter (fun a => a.kind == "daily_spike") =
      pairSpikes m sens l := by
  rw [List.filter_eq_self]
  intro a ha
  have := pairSpikes_kind m sens l a ha
  simp [this]

/-- The daily-spike loop flags exactly the consecutive pairs of its window
whose second element exceeds the first times the multiplier. -/
theorem pairSpikes_eq_zip (m : ℚ) (sens : String) (l : List ℚ) :
    pairSpikes m sens l =
      ((l.zip l.tail).filter (fun p => decide (p.2 > p.1 * m))).map
        (fun _ => ⟨"daily_spike", "high", sens⟩) := by
  induction l with
  | nil => simp [pairSpikes]
  | cons a t ih =>
      cases t with
      | nil => simp [pairSpikes]
      | cons b rest =>
          unfold pairSpikes
          rw [ih]
          simp only [List.tail_cons, List.zip_cons_cons, List.filter_cons]
          by_cases h : b > a * m
          · simp [h]
          · simp [h]

/-- The multiplier for "medium" sensitivity is 1.5. -/
theorem sensitivityMultiplier_medium : sensitivityMultiplier "medium" = 3/2 := rfl

/-- The weekly-spike guard of `check_cost_anomalies` never fires with fewer
than 7 data points. -/
theorem check_cost_anomalies_short (e : Bool) (s : String) (l : List ℚ)
    (h : l.length < 7) : check_cost_anomalies e s l = [] := by
  unfold check_cost_anomalies
  cases e <;> simp [h]

/-! ## Claim C1 — weekly-spike anomaly -/

/-- Counterexample to claim C1: a series of 8 equal positive daily costs has
fewer than 14 days of data, yet `check_cost_anomalies` emits a `cost_spike`
anomaly (the prior window holds a single day whose cost is divided by 7,
making `previous_avg` one-seventh of the steady cost). -/
theorem weekly_spike_fires_below_14_days :
    (List.replicate 8 (10:ℚ)).length < 14
      ∧ check_cost_anomalies true "medium" (List.replicate 8 10) =
        [⟨"cost_spike", "high", "medium"⟩] := by
  constructor
  · decide
  · norm_num [check_cost_anomalies, recent_avg, previous_avg, pySlice,
      sensitivityMultiplier_medium, List.replicate, pairSpikes]

/-- C1 (amended): for a daily series of at least 14 entries the `cost_spike`
anomaly is emitted exactly when the mean of the last 7 days exceeds the mean
of the prior 7 days times the sensitivity multiplier *and* that prior mean
is nonzero (a zero prior mean makes the description formatting divide by
zero; the caught exception returns the empty list), with severity "high"
exactly when the recent mean exceeds twice the prior mean; for nonnegative
costs "nonzero prior mean" is "positive prior mean"; with fewer than 7
entries the result is the empty list without error. -/
theorem check_cost_anomalies_weekly_spec (s : String) (l : List ℚ)
    (h14 : 14 ≤ l.length) :
    ((check_cost_anomalies true s l).filter (fun a => a.kind == "cost_spike") =
      if previous_avg l ≠ 0 ∧
          recent_avg l > previous_avg l * sensitivityMultiplier s then
        [⟨"cost_spike",
          if recent_avg l > previous_avg l * 2 then "high" else "medium", s⟩]
      else [])
    ∧ ((∀ x ∈ l, 0 ≤ x) → (previous_avg l ≠ 0 ↔ 0 < previous_avg l))
    ∧ (∀ l2 : List ℚ, l2.length < 7 → check_cost_anomalies true s l2 = []) := by
  refine ⟨?_, ?_, fun l2 h => check_cost_anomalies_short true s l2 h⟩
  · unfold check_cost_anomalies
    have h7 : ¬ l.length < 7 := by omega
    simp only [Bool.not_true, Bool.false_eq_true, if_false, h7]
    by_cases hz : recent_avg l > previous_avg l * sensitivityMultiplier s ∧
        previous_avg l = 0
    · rw [if_pos hz]
      have hn : ¬(previous_avg l ≠ 0 ∧
          recent_avg l > previous_avg l * sensitivityMultiplier s) := by
        rintro ⟨hne, -⟩; exact hne hz.2
      rw [if_neg hn]
      rfl
    · rw [if_neg hz]
      by_cases hw : recent_avg l > previous_avg l * sensitivityMultiplier s
      · have hne : previous_avg l ≠ 0 := fun h0 => hz ⟨hw, h0⟩
        have hp : previous_avg l ≠ 0 ∧
            recent_avg l > previous_avg l * sensitivityMultiplier s := ⟨hne, hw⟩
        rw [if_pos hw, if_pos hp, List.filter_append, pairSpikes_filter_cost,
          List.append_nil]
        simp
      · have hn : ¬(previous_avg l ≠ 0 ∧
            recent_avg l > previous_avg l * sensitivityMultiplier s) := by
          rintro ⟨-, hw'⟩; exact hw hw'
        rw [if_neg hw, if_neg hn, List.nil_append, pairSpikes_filter_cost]
  · intro hpos
    have hmem : ∀ x ∈ pySlice l (l.length - 14) (l.length - 7), 0 ≤ x := by
      intro x hx
      exact hpos x (List.mem_of_mem_drop (List.mem_of_mem_take hx))
    have hsum : 0 ≤ (pySlice l (l.length - 14) (l.length - 7)).sum :=
      List.sum_nonneg hmem
    have havg : 0 ≤ previous_avg l := by
      unfold previous_avg
      positivity
    constructor
    · intro hne
      exact lt_of_le_of_ne havg (Ne.symm hne)
    · intro hlt
      exact ne_of_gt hlt

/-- Witness for `check_cost_anomalies_weekly_spec` at a concrete 14-day
series (7 days at 10 followed by 7 days at 30). -/
theorem check_cost_anomalies_weekly_spec_witness :
    (check_cost_anomalies true "medium"
        (List.replicate 7 (10:ℚ) ++ List.replicate 7 30)).filter
      (fun a => a.kind == "cost_spike") =
    [⟨"cost_spike", "high", "medium"⟩] := by
  have h := check_cost_anomalies_weekly_spec "medium"
    (List.replicate 7 (10:ℚ) ++ List.replicate 7 30) (by decide)
  rw [h.1]
  rw [if_pos]
  · norm_num [recent_avg, previous_avg, pySlice, List.replicate]
  · constructor
    · norm_num [previous_avg, pySlice, List.replicate]
    · norm_num [recent_avg, previous_avg, pySlice, List.replicate,
        sensitivityMultiplier_medium]

/-! ## Claim C5 — daily-spike anomalies -/

/-- Counterexample to claim C5: on the spec's own fixture
`[10,10,10,10,10,10,25]` (exactly 7 days of history) no anomaly at all is
produced — the prior-week slice is empty, so `previous_avg = 0`, the weekly
condition `recent_avg > 0 * multiplier` holds, formatting its description
divides by zero, and the caught exception makes the whole call return the
empty list instead of flagging the final day. -/
theorem daily_spike_fixture_returns_empty :
    check_cost_anomalies true "medium" [10, 10, 10, 10, 10, 10, 25] = []
      ∧ sensitivityMultiplier "medium" = 3/2
      ∧ (25:ℚ) > 10 * sensitivityMultiplier "medium" := by
  refine ⟨?_, rfl, by norm_num [sensitivityMultiplier_medium]⟩
  norm_num [check_cost_anomalies, recent_avg, previous_avg, pySlice,
    sensitivityMultiplier_medium]

/-- C5 (amended): provided the weekly-spike computation does not abort the
call (its zero-division case), walking the last 7 days pairwise emits a
`daily_spike` anomaly with severity "high" for day `i` exactly when
`cost[i] > cost[i-1] * multiplier`, with multiplier 2.0 for "low", 1.2 for
"high" and 1.5 for "medium" or any unrecognized value; the spec's fixture
series flags exactly the final day once it is preceded by enough history
for the prior week to be nonzero (e.g. 13 days at 10 then one at 25). -/
theorem check_cost_anomalies_daily_spec (s : String) (l : List ℚ)
    (h7 : 7 ≤ l.length)
    (hsafe : ¬(recent_avg l > previous_avg l * sensitivityMultiplier s ∧
        previous_avg l = 0)) :
    ((check_cost_anomalies true s l).filter (fun a => a.kind == "daily_spike") =
      (((l.drop (l.length - 7)).zip (l.drop (l.length - 7)).tail).filter
          (fun p => decide (p.2 > p.1 * sensitivityMultiplier s))).map
        (fun _ => ⟨"daily_spike", "high", s⟩))
    ∧ sensitivityMultiplier "low" = 2
    ∧ sensitivityMultiplier "high" = 6/5
    ∧ (∀ t : String, t ≠ "low" → t ≠ "high" → sensitivityMultiplier t = 3/2)
    ∧ check_cost_anomalies true "medium" (List.replicate 13 10 ++ [25]) =
        [⟨"daily_spike", "high", "medium"⟩] := by
  refine ⟨?_, rfl, rfl, ?_, ?_⟩
  · unfold check_cost_anomalies
    have h7' : ¬ l.length < 7 := by omega
    simp only [Bool.not_true, Bool.false_eq_true, if_false, h7']
    rw [if_neg hsafe]
    by_cases hw : recent_avg l > previous_avg l * sensitivityMultiplier s
    · rw [if_pos hw, List.filter_append, pairSpikes_filter_daily,
        pairSpikes_eq_zip]
      simp
    · rw [if_neg hw, List.nil_append, pairSpikes_filter_daily,
        pairSpikes_eq_zip]
  · intro t h1 h2
    unfold sensitivityMultiplier
    rw [if_neg h1, if_neg h2]
    split_ifs <;> rfl
  · norm_num [check_cost_anomalies, recent_avg, previous_avg, pySlice,
      sensitivityMultiplier_medium, List.replicate, pairSpikes]

/-- Witness for `check_cost_anomalies_daily_spec` on the 14-day extension of
the spec fixture: exactly the final day is flagged. -/
theorem check_cost_anomalies_daily_spec_witness :
    (check_cost_anomalies true "medium"
        (List.replicate 13 (10:ℚ) ++ [25])).filter
      (fun a => a.kind == "daily_spike") =
    [⟨"daily_spike", "high", "medium"⟩] := by
  have h := check_cost_anomalies_daily_spec "medium"
    (List.replicate 13 (10:ℚ) ++ [25]) (by decide)
    (by
      norm_num [recent_avg, previous_avg, pySlice, List.replicate,
        sensitivityMultiplier_medium])
  rw [h.1]
  norm_num [List.replicate, sensitivityMultiplier_medium]

/-! ## Claim C2 — zero / non-positive thresholds -/

/-- Claim C2 evaluated at the failing input (cost 50, threshold 0, and also
threshold −10): `check_costs` re-raises the `ZeroDivisionError` of its
unguarded `(current_cost / cost_threshold) * 100` (modelled as `none`);
`send_cost_alert` catches its own division's error and returns `False`
instead of sending a critical alert; the guarded percentage of
`get_service_specific_costs` is `0`, which the alert ladder classifies as
NORMAL, not CRITICAL; a negative threshold classifies as NORMAL as well.
So no percentage-of-threshold path treats a non-positive threshold as an
immediate "critical" classification. -/
theorem zero_threshold_divergence_eval :
    check_costs_percentage 50 0 = none
    ∧ send_cost_alert 50 0 (Except.ok ()) = false
    ∧ percentage_of_threshold 50 0 = 0
    ∧ alertLevel 100 80 50 (percentage_of_threshold 50 0) = "✅ NORMAL"
    ∧ check_costs_percentage 50 (-10) = some (-500)
    ∧ alertLevel 100 80 50 (-500) = "✅ NORMAL" := by
  refine ⟨rfl, rfl, ?_, ?_, ?_, ?_⟩
  · norm_num [percentage_of_threshold]
  · norm_num [percentage_of_threshold, alertLevel]
  · norm_num [check_costs_percentage]
  · norm_num [alertLevel]

/-! ## Claim C3 — configuration precedence -/

/-- Claim C3 evaluated at the failing input: a config file setting
`cost_threshold` to 200 is silently ignored, because `_load_config_file`'s
`hasattr` merge loop runs before any configuration attribute has been
assigned; the resolved value is the environment's 50 (or the default 100
when the environment is silent).  A CLI `--threshold 75` override does take
effect.  So the effective precedence is CLI > environment > default, with
the config file dropped, not CLI > config file > environment. -/
theorem config_file_values_ignored_eval :
    configCostThreshold (configInit [("cost_threshold", ConfigVal.num 200)]
        ⟨some 50, none, none, none, none⟩) = 50
    ∧ configCostThreshold (configInit [("cost_threshold", ConfigVal.num 200)]
        ⟨none, none, none, none, none⟩) = 100
    ∧ configCostThreshold (applyCliThreshold (some 75)
        (configInit [("cost_threshold", ConfigVal.num 200)]
          ⟨some 50, none, none, none, none⟩)) = 75 := by
  refine ⟨rfl, rfl, ?_⟩
  norm_num [applyCliThreshold]
  rfl

/-! ## Claim C4 — alert-level monotonicity and inclusive boundaries -/

/-- The rank of an alert level equals the rank of the inclusive cutoff
ladder the percentage falls into. -/
theorem levelRank_alertLevel (cr wa inf p : ℚ) :
    levelRank (alertLevel cr wa inf p) =
      if p ≥ cr then 3 else if p ≥ wa then 2 else if p ≥ inf then 1 else 0 := by
  unfold alertLevel levelRank
  split_ifs <;> simp_all

/-- C4: with cutoffs ordered info ≤ warning ≤ critical, the alert level of
`send_cost_alert` is monotonic non-decreasing in the percentage, hence in
C/T for a fixed positive threshold, and a percentage exactly equal to a
cutoff classifies into that cutoff's (higher) tier — the comparison is the
inclusive `>=` at every level. -/
theorem alert_level_monotone_inclusive (cr wa inf c c2 t p q : ℚ)
    (hiw : inf ≤ wa) (hwc : wa ≤ cr) :
    (p ≤ q →
      levelRank (alertLevel cr wa inf p) ≤ levelRank (alertLevel cr wa inf q))
    ∧ (0 < t → 0 ≤ c → c ≤ c2 →
      levelRank (alertLevel cr wa inf ((c / t) * 100)) ≤
        levelRank (alertLevel cr wa inf ((c2 / t) * 100)))
    ∧ alertLevel cr wa inf cr = "🚨 CRITICAL"
    ∧ (wa < cr → alertLevel cr wa inf wa = "⚠️ WARNING")
    ∧ (inf < wa → inf < cr → alertLevel cr wa inf inf = "ℹ️ INFO") := by
  have mono : ∀ x y : ℚ, x ≤ y →
      levelRank (alertLevel cr wa inf x) ≤ levelRank (alertLevel cr wa inf y) := by
    intro x y hxy
    rw [levelRank_alertLevel, levelRank_alertLevel]
    split_ifs <;> first | omega | linarith
  refine ⟨mono p q, ?_, ?_, ?_, ?_⟩
  · intro ht hc hcc
    refine mono _ _ ?_
    have : c / t ≤ c2 / t := by
      exact div_le_div_of_nonneg_right hcc ht.le
    linarith
  · unfold alertLevel
    rw [if_pos le_rfl]
  · intro h
    unfold alertLevel
    rw [if_neg (by linarith), if_pos le_rfl]
  · intro h1 h2
    unfold alertLevel
    rw [if_neg (by linarith), if_neg (by linarith), if_pos le_rfl]

/-- Witness for `alert_level_monotone_inclusive` at the default cutoffs
100/80/50 with threshold 100 and costs 50 ≤ 120. -/
theorem alert_level_monotone_inclusive_witness :
    (levelRank (alertLevel 100 80 50 ((50 / 100) * 100)) ≤
      levelRank (alertLevel 100 80 50 ((120 / 100) * 100)))
    ∧ alertLevel 100 80 50 100 = "🚨 CRITICAL"
    ∧ alertLevel 100 80 50 80 = "⚠️ WARNING"
    ∧ alertLevel 100 80 50 50 = "ℹ️ INFO" := by
  have h := alert_level_monotone_inclusive 100 80 50 50 120 100 0 0
    (by norm_num) (by norm_num)
  exact ⟨h.2.1 (by norm_num) (by norm_num) (by norm_num),
    h.2.2.1, h.2.2.2.1 (by norm_num), h.2.2.2.2 (by norm_num) (by norm_num)⟩

/-! ## Claim C6 — resource include/exclude filter -/

/-- C6: `should_monitor_resource` returns false whenever some excluded entry
is a substring of the ARN, regardless of the include list; with an empty
include list it returns true for every ARN not so excluded; with a
non-empty include list it returns true iff some included entry is a
substring and no excluded entry is. -/
theorem should_monitor_resource_spec (inc exc : List (List ℕ)) (arn : List ℕ) :
    ((∃ e ∈ exc, e <:+: arn) → should_monitor_resource inc exc arn = false)
    ∧ (inc = [] → (¬ ∃ e ∈ exc, e <:+: arn) →
        should_monitor_resource inc exc arn = true)
    ∧ (inc ≠ [] →
        (should_monitor_resource inc exc arn = true ↔
          (∃ i ∈ inc, i <:+: arn) ∧ ¬ ∃ e ∈ exc, e <:+: arn)) := by
  have hexc : exc.any (fun e => decide (e <:+: arn)) = true ↔
      ∃ e ∈ exc, e <:+: arn := by
    simp [List.any_eq_true]
  have hinc : inc.any (fun i => decide (i <:+: arn)) = true ↔
      ∃ i ∈ inc, i <:+: arn := by
    simp [List.any_eq_true]
  refine ⟨?_, ?_, ?_⟩
  · intro h
    unfold should_monitor_resource
    rw [if_pos (hexc.2 h)]
  · intro hempty hne
    unfold should_monitor_resource
    rw [if_neg (by simpa [hexc] using hne), if_pos (by simp [hempty])]
  · intro hne
    unfold should_monitor_resource
    by_cases he : exc.any (fun e => decide (e <:+: arn)) = true
    · rw [if_pos he]
      simp only [Bool.false_eq_true, false_iff]
      rintro ⟨-, hno⟩
      exact hno (hexc.1 he)
    · rw [if_neg he, if_neg (by simpa using hne)]
      rw [hinc]
      constructor
      · intro hi
        exact ⟨hi, fun hx => he (hexc.2 hx)⟩
      · rintro ⟨hi, -⟩
        exact hi

/-- Witness for `should_monitor_resource_spec`: the excluded substring
`[120]` occurs in the ARN `[97, 120, 98]`, so it is not monitored even
though the include list also matches it. -/
theorem should_monitor_resource_spec_witness :
    should_monitor_resource [[97]] [[120]] [97, 120, 98] = false := by
  have h := should_monitor_resource_spec [[97]] [[120]] [97, 120, 98]
  exact h.1 ⟨[120], by decide, by decide⟩

/-! ## Claim C7 — alert-level ordering invariant -/

/-- Counterexample to claim C7: the environment is free to supply
`ALERT_INFO_PERCENT=200` with the other levels at their defaults; nothing
validates the ordering, so the resolved configuration has
info = 200 > warning = 80. -/
theorem alert_levels_ordering_not_enforced :
    alertLevelValue (configAlertLevels
        (configInit [] ⟨none, none, none, none, some 200⟩)) "info" = 200
    ∧ alertLevelValue (configAlertLevels
        (configInit [] ⟨none, none, none, none, some 200⟩)) "warning" = 80
    ∧ ¬(alertLevelValue (configAlertLevels
          (configInit [] ⟨none, none, none, none, some 200⟩)) "info" <
        alertLevelValue (configAlertLevels
          (configInit [] ⟨none, none, none, none, some 200⟩)) "warning") := by
  refine ⟨rfl, rfl, ?_⟩
  have h1 : alertLevelValue (configAlertLevels
      (configInit [] ⟨none, none, none, none, some 200⟩)) "info" = 200 := rfl
  have h2 : alertLevelValue (configAlertLevels
      (configInit [] ⟨none, none, none, none, some 200⟩)) "warning" = 80 := rfl
  rw [h1, h2]
  norm_num

/-- C7 (amended): the resolved alert levels satisfy info < warning <
critical for the default environment (50 / 80 / 100) — the ordering holds
by the default values, not by validation, and environment- or CLI-supplied
percentages can violate it. -/
theorem alert_levels_default_ordered :
    alertLevelValue (configAlertLevels
        (configInit [] ⟨none, none, none, none, none⟩)) "info" <
      alertLevelValue (configAlertLevels
        (configInit [] ⟨none, none, none, none, none⟩)) "warning"
    ∧ alertLevelValue (configAlertLevels
        (configInit [] ⟨none, none, none, none, none⟩)) "warning" <
      alertLevelValue (configAlertLevels
        (configInit [] ⟨none, none, none, none, none⟩)) "critical" := by
  have h1 : alertLevelValue (configAlertLevels
      (configInit [] ⟨none, none, none, none, none⟩)) "info" = 50 := rfl
  have h2 : alertLevelValue (configAlertLevels
      (configInit [] ⟨none, none, none, none, none⟩)) "warning" = 80 := rfl
  have h3 : alertLevelValue (configAlertLevels
      (configInit [] ⟨none, none, none, none, none⟩)) "critical" = 100 := rfl
  rw [h1, h2, h3]
  norm_num

/-! ## Claim C8 — empty billing response -/

/-- C8: a billing response with no time buckets yields empty or zero
outputs, not an error: `get_daily_costs` returns an empty list,
`get_current_month_cost` returns a zero total with an empty service map,
and `_process_cost_data` returns zero total cost with empty daily and
service breakdowns. -/
theorem empty_billing_response_empty_outputs (f : String → Bool) :
    get_daily_costs ⟨[]⟩ = []
    ∧ get_current_month_cost f ⟨[]⟩ = (0, [])
    ∧ (process_cost_data f ⟨[]⟩).total_cost = 0
    ∧ (process_cost_data f ⟨[]⟩).daily_breakdown = []
    ∧ (process_cost_data f ⟨[]⟩).service_breakdown = [] :=
  ⟨rfl, rfl, rfl, rfl, rfl⟩

/-! ## Claim C9 — notifier failure handling -/

/-- C9: for each of the three notifier operations, a messaging-API rejection
is converted into the return value `False` (never an exception escaping to
the caller, the functions being total into `Bool`), and a successful
delivery returns `True` — away from the internal zero-division inputs
(`threshold = 0` for `send_cost_alert`, forecast present with
`total_cost = 0` for `send_cost_summary`) where the `except` clauses also
return `False` before any delivery is attempted. -/
theorem notifier_delivery_reported_as_boolean
    (c t tc p : ℚ) (f : Option ℚ) (ef : Bool) (err : String)
    (ht : t ≠ 0) (htc : tc ≠ 0) :
    (send_cost_alert c t (Except.error err) = false
      ∧ send_cost_alert c t (Except.ok ()) = true)
    ∧ (send_service_specific_alert c t p (Except.error err) = false
      ∧ send_service_specific_alert c t p (Except.ok ()) = true)
    ∧ (send_cost_summary tc f ef (Except.error err) = false
      ∧ send_cost_summary tc f ef (Except.ok ()) = true) := by
  refine ⟨⟨?_, ?_⟩, ⟨rfl, rfl⟩, ⟨?_, ?_⟩⟩
  · simp [send_cost_alert, ht]
  · simp [send_cost_alert, ht]
  · simp [send_cost_summary, htc]
  · simp [send_cost_summary, htc]

/-- Witness for `notifier_delivery_reported_as_boolean` at concrete
inputs. -/
theorem notifier_delivery_reported_as_boolean_witness :
    (send_cost_alert 50 100 (Except.error "channel_not_found") = false
      ∧ send_cost_alert 50 100 (Except.ok ()) = true)
    ∧ (send_service_specific_alert 50 100 50
          (Except.error "channel_not_found") = false
      ∧ send_service_specific_alert 50 100 50 (Except.ok ()) = true)
    ∧ (send_cost_summary 120 none true (Except.error "channel_not_found") = false
      ∧ send_cost_summary 120 none true (Except.ok ()) = true) :=
  notifier_delivery_reported_as_boolean 50 100 120 50 none true
    "channel_not_found" (by norm_num) (by norm_num)

/-! ## Claim C10 — per-service threshold lookup -/

/-- C10: `get_service_threshold` returns the `service_thresholds` entry at
the lowercased query name when present and the global threshold otherwise;
since only the queried name is lowercased, a lowercased query never equals
a stored key containing an uppercase letter, so such entries are dead and
the global threshold applies. -/
theorem get_service_threshold_spec (d : List (List ℕ × ℚ)) (g : ℚ)
    (s : List ℕ) :
    get_service_threshold d g s = dictGetQ d (pyLower s) g
    ∧ (∀ (v : ℚ) (d2 : List (List ℕ × ℚ)),
        get_service_threshold ((pyLower s, v) :: d2) g s = v)
    ∧ (∀ k : List ℕ, (∃ c ∈ k, 65 ≤ c ∧ c ≤ 90) → pyLower s ≠ k)
    ∧ ((∀ k ∈ d.map Prod.fst, ∃ c ∈ k, 65 ≤ c ∧ c ≤ 90) →
        get_service_threshold d g s = g) := by
  have lowerNotUpper : ∀ k : List ℕ, (∃ c ∈ k, 65 ≤ c ∧ c ≤ 90) →
      pyLower s ≠ k := by
    rintro k ⟨c, hck, h65, h90⟩ heq
    rw [← heq] at hck
    unfold pyLower at hck
    obtain ⟨a, -, ha⟩ := List.mem_map.1 hck
    unfold pyLowerChar at ha
    split_ifs at ha <;> omega
  refine ⟨rfl, ?_, lowerNotUpper, ?_⟩
  · intro v d2
    unfold get_service_threshold dictGetQ
    rw [if_pos rfl]
  · intro hall
    unfold get_service_threshold
    induction d with
    | nil => rfl
    | cons kv rest ih =>
        obtain ⟨k, v⟩ := kv
        unfold dictGetQ
        rw [if_neg]
        · exact ih (fun k2 hk2 => hall k2 (by simp [hk2]))
        · intro hkq
          exact lowerNotUpper k (hall k (by simp)) hkq.symm

/-- Witness for `get_service_threshold_spec`: a threshold stored under the
key "Amazon EC2" (code points, containing uppercase letters) is never
found, and the global threshold 100 is returned for the query
"Amazon EC2" itself. -/
theorem get_service_threshold_spec_witness :
    get_service_threshold [([65, 109, 97, 122, 111, 110, 32, 69, 67, 50], 500)]
      100 [65, 109, 97, 122, 111, 110, 32, 69, 67, 50] = 100 := by
  have h := get_service_threshold_spec
    [([65, 109, 97, 122, 111, 110, 32, 69, 67, 50], 500)] 100
    [65, 109, 97, 122, 111, 110, 32, 69, 67, 50]
  exact h.2.2.2 (by decide)
